import Mathlib

/-!
Shallow embedding of the movie-recommendation bot (`bot.py`).

The catalog is a list of movie rows; numeric columns (`popularity`,
`vote_average`) are modelled as rationals, the derived `year` column as an
integer.  Python's `float(text)` / `int(text)` input parsing is modelled by
executable decimal parsers (`parseFloat`, `parseInt`) covering signed decimal
literals with surrounding whitespace.  The `ConversationHandler` dialog is a
step function on an explicit state type; `DataFrame.sample(1)` is modelled by
an index-driven selection (`choose`) from a non-empty list.
-/

namespace MovieBot

/-- One row of the movie catalog (`movies_df` after `load_movies`: the required
CSV columns plus the derived `year` column; `poster_path` is `none` when the
cell is missing/NaN, mirroring the `pd.notna(poster) and isinstance(poster, str)`
guard in `_send_movie_info`). -/
structure Movie where
  title : String
  overview : String
  year : Int
  popularity : ℚ
  vote_average : ℚ
  vote_count : Nat
  poster_path : Option String
deriving DecidableEq, Repr

/-- The in-memory catalog: `self.movies_df` as a list of rows. -/
abbrev Catalog := List Movie

/-- A fully specified filter request, one constructor per search flow of the
bot (`random`, `rating`, `year`, `popularity` callbacks). -/
inductive FilterCriterion where
  | Random : FilterCriterion
  | MinRating : ℚ → FilterCriterion
  | Year : Int → FilterCriterion
  | MinPopularity : ℚ → FilterCriterion
deriving DecidableEq, Repr

/-- The filtering step of the bot, one case per flow:
`random_movie` uses the whole table, `process_rating` line 131 is
`movies_df[movies_df.vote_average >= rating]`, `process_year` line 153 is
`movies_df[movies_df.year == year]`, `process_popularity` line 175 is
`movies_df[movies_df.popularity >= popularity]`. -/
def candidates (C : Catalog) : FilterCriterion → List Movie
  | .Random => C
  | .MinRating r => C.filter (fun m => decide (r ≤ m.vote_average))
  | .Year y => C.filter (fun m => decide (m.year = y))
  | .MinPopularity p => C.filter (fun m => decide (p ≤ m.popularity))

/-- The criterion's predicate exactly as the claims state it: `vote_average >= r`
for `MinRating r`, `year == y` for `Year y`, `popularity >= p` for
`MinPopularity p`, and the trivial predicate for `Random`.  (Spec-side
definition, to be compared with `candidates`.) -/
def critPred : FilterCriterion → Movie → Prop
  | .Random => fun _ => True
  | .MinRating r => fun m => r ≤ m.vote_average
  | .Year y => fun m => m.year = y
  | .MinPopularity p => fun m => p ≤ m.popularity

/-- Selection of one row, modelling `filtered.sample(1).iloc[0]`: from a non-empty list
driven by an arbitrary index `k` standing for the randomness source.  The
emptiness proof obligation mirrors the caller contract: every call site in
`bot.py` checks `filtered.empty` (or the `require_data` guard) first. -/
def choose (l : List Movie) (h : l ≠ []) (k : Nat) : Movie :=
  l.get ⟨k % l.length, Nat.mod_lt _ (List.length_pos_iff_ne_nil.mpr h)⟩

/-- Digit list to number, for the parsers. -/
def digitsToNat (cs : List Char) : Nat :=
  cs.foldl (fun a c => 10 * a + (c.toNat - Char.toNat '0')) 0

/-- A non-empty all-digit character list. -/
def isDigits (cs : List Char) : Bool :=
  !cs.isEmpty && cs.all Char.isDigit

/-- Strip leading and trailing whitespace, as Python's numeric constructors do. -/
def stripWs (cs : List Char) : List Char :=
  ((cs.dropWhile Char.isWhitespace).reverse.dropWhile Char.isWhitespace).reverse

/-- Unsigned part of a Python `float` literal, in exact decimal form
`(numerator, fractional digit count)`: digits with an optional single decimal
point, at least one digit required (`"7.5"`, `"7."`, `".5"` parse; `"."`,
`""`, `"abc"` do not). -/
def parseUnsignedRep (cs : List Char) : Option (Nat × Nat) :=
  let ip := cs.takeWhile (fun c => c != '.')
  let rest := cs.dropWhile (fun c => c != '.')
  match rest with
  | [] => if isDigits ip then some (digitsToNat ip, 0) else none
  | _ :: fp =>
    if fp.any (fun c => c == '.') then none
    else if ip.isEmpty && fp.isEmpty then none
    else if ip.all Char.isDigit && fp.all Char.isDigit then
      some (digitsToNat ip * 10 ^ fp.length + digitsToNat fp, fp.length)
    else none

/-- Signed decimal literal in exact form: the parsed text denotes
`numerator / 10 ^ exponent`. -/
def parseDecimalRep (s : String) : Option (Int × Nat) :=
  match stripWs s.toList with
  | '-' :: rest => (parseUnsignedRep rest).map (fun ne => (-(ne.1 : Int), ne.2))
  | '+' :: rest => (parseUnsignedRep rest).map (fun ne => ((ne.1 : Int), ne.2))
  | cs => (parseUnsignedRep cs).map (fun ne => ((ne.1 : Int), ne.2))

/-- Model of Python's `float(text)` used at `process_rating` line 120 and
`process_popularity` line 170: optional sign, decimal digits with optional
fractional part, read exactly as a rational; `none` models the `ValueError`
branch. -/
def parseFloat (s : String) : Option ℚ :=
  (parseDecimalRep s).map (fun ne => (ne.1 : ℚ) / 10 ^ ne.2)

/-- Model of Python's `int(text)` used at `process_year` line 148: optional
sign followed by a non-empty digit string; `none` models the `ValueError`
branch (so `"7.5"` and `"twenty-twenty"` fail). -/
def parseInt (s : String) : Option Int :=
  match stripWs s.toList with
  | '-' :: rest => if isDigits rest then some (-(digitsToNat rest : Int)) else none
  | '+' :: rest => if isDigits rest then some ((digitsToNat rest : Int)) else none
  | cs => if isDigits cs then some ((digitsToNat cs : Int)) else none

/-- Minimum of a numeric column (`Series.min`): `none` for an empty column (where
pandas would yield NaN). -/
def seriesMin : List ℚ → Option ℚ
  | [] => none
  | x :: xs => some (xs.foldl min x)

/-- Maximum of a numeric column (`Series.max`): `none` for an empty column (where
pandas would yield NaN). -/
def seriesMax : List ℚ → Option ℚ
  | [] => none
  | x :: xs => some (xs.foldl max x)

/-- The bounds test `min_rating <= rating <= max_rating` of `process_rating`
lines 125-127.  On an empty column pandas yields NaN and every comparison with
NaN is false, hence the `false` fallback. -/
def ratingInBounds (C : Catalog) (r : ℚ) : Bool :=
  match seriesMin (C.map Movie.vote_average), seriesMax (C.map Movie.vote_average) with
  | some lo, some hi => decide (lo ≤ r) && decide (r ≤ hi)
  | _, _ => false

/-- The rating-validation portion of `process_rating` lines 118-129: parse as
float, then require the catalog bounds to hold; `none` covers both the
`ValueError` reply and the out-of-range reply. -/
def validateRating (C : Catalog) (text : String) : Option ℚ :=
  match parseFloat text with
  | none => none
  | some r => if ratingInBounds C r then some r else none

/-- Dialog states: `Idle` is "no open conversation"; the three `Awaiting`
states are the `RATING`, `YEAR`, `POPULARITY` conversation states. -/
inductive DialogState where
  | Idle : DialogState
  | AwaitingRating : DialogState
  | AwaitingYear : DialogState
  | AwaitingPopularity : DialogState
deriving DecidableEq, Repr

/-- Inbound intents handled by the bot's handlers. -/
inductive Event where
  | selectRandom : Event
  | selectRating : Event
  | selectYear : Event
  | selectPopularity : Event
  | textInput : String → Event
  | cancel : Event
deriving DecidableEq, Repr

/-- Outbound responses, one constructor per reply category of the handlers:
selection prompts, the corrective "enter a correct number" replies, the
"not found" replies, a presented movie, the cancel acknowledgment, the
`require_data` notice, and silence for unhandled input. -/
inductive Response where
  | prompt : Response
  | validationError : Response
  | notFound : Response
  | resultMovie : Movie → Response
  | cancelled : Response
  | noData : Response
  | ignored : Response
deriving DecidableEq, Repr

/-- Model of `process_rating` (lines 118-138): float parse, bounds check against the
catalog's min/max `vote_average`, filter, emptiness check, sample; failure
paths stay in the `RATING` state, success ends the conversation. -/
def processRating (C : Catalog) (text : String) (k : Nat) : Response × DialogState :=
  match parseFloat text with
  | none => (.validationError, .AwaitingRating)
  | some rating =>
    if ratingInBounds C rating then
      if h : candidates C (.MinRating rating) = [] then (.notFound, .AwaitingRating)
      else (.resultMovie (choose (candidates C (.MinRating rating)) h k), .Idle)
    else (.validationError, .AwaitingRating)

/-- Model of `process_year` (lines 146-160): int parse (no range check), filter by
equality on `year`, emptiness check, sample; failure paths stay in the `YEAR`
state, success ends the conversation. -/
def processYear (C : Catalog) (text : String) (k : Nat) : Response × DialogState :=
  match parseInt text with
  | none => (.validationError, .AwaitingYear)
  | some y =>
    if h : candidates C (.Year y) = [] then (.notFound, .AwaitingYear)
    else (.resultMovie (choose (candidates C (.Year y)) h k), .Idle)

/-- Model of `process_popularity` (lines 168-182): float parse (no bounds check at
all), filter by `popularity >= p`, emptiness check, sample; failure paths stay
in the `POPULARITY` state, success ends the conversation. -/
def processPopularity (C : Catalog) (text : String) (k : Nat) : Response × DialogState :=
  match parseFloat text with
  | none => (.validationError, .AwaitingPopularity)
  | some p =>
    if h : candidates C (.MinPopularity p) = [] then (.notFound, .AwaitingPopularity)
    else (.resultMovie (choose (candidates C (.MinPopularity p)) h k), .Idle)

/-- One dispatch step of the bot, as wired in `main` (lines 230-249): the
selection callbacks are conversation entry points with `allow_reentry=True`,
so they fire from every state and replace the pending session; `/cancel`
(`cancel` lines 211-213) is registered only as a conversation fallback
(line 246), and fallbacks are consulted only while a conversation is open, so
from an open `Awaiting` state it acknowledges and ends the conversation while
from `Idle` no handler matches it and nothing is emitted; `random` (guarded
by `require_data`) resolves immediately without touching the conversation
state; text input is routed by the current conversation state and ignored
when no conversation is open. -/
def step (C : Catalog) (s : DialogState) (e : Event) (k : Nat) : Response × DialogState :=
  match e with
  | .cancel =>
    match s with
    | .Idle => (.ignored, .Idle)
    | _ => (.cancelled, .Idle)
  | .selectRating => (.prompt, .AwaitingRating)
  | .selectYear => (.prompt, .AwaitingYear)
  | .selectPopularity => (.prompt, .AwaitingPopularity)
  | .selectRandom =>
    if h : C = [] then (.noData, s)
    else (.resultMovie (choose C h k), s)
  | .textInput t =>
    match s with
    | .Idle => (.ignored, .Idle)
    | .AwaitingRating => processRating C t k
    | .AwaitingYear => processYear C t k
    | .AwaitingPopularity => processPopularity C t k

/-- Overview truncation of `_send_movie_info` lines 191-193: cut to the
configured maximum length and append the ellipsis marker exactly when the
overview is longer than that length. -/
def truncateOverview (maxLen : Nat) (o : String) : String :=
  if o.length > maxLen then o.take maxLen ++ "..."
  else o

/-- One-decimal rendering of the popularity value (the `:.1f` format at
line 189), modelled as rounding to a whole number of tenths. -/
def fmt1 (q : ℚ) : ℚ := (round (q * 10) : ℚ) / 10

/-- The structured payload assembled by `_send_movie_info` (lines 184-198):
header, title, year, rating with vote count, popularity rendered to one
decimal, possibly-truncated overview, and the optional poster link. -/
structure MoviePayload where
  header : String
  title : String
  year : Int
  vote_average : ℚ
  vote_count : Nat
  popularity1 : ℚ
  overviewShown : String
  poster : Option String
deriving DecidableEq, Repr

/-- Payload builder modelling `_send_movie_info`: each field is taken from the
movie row exactly as the message text interpolates it; the poster link is
attached whenever the `poster_path` cell holds a string (the
`pd.notna(poster) and isinstance(poster, str)` guard at line 197 — note it
does not test for non-emptiness). -/
def mkPayload (maxLen : Nat) (header : String) (m : Movie) : MoviePayload :=
  { header := header
    title := m.title
    year := m.year
    vote_average := m.vote_average
    vote_count := m.vote_count
    popularity1 := fmt1 m.popularity
    overviewShown := truncateOverview maxLen m.overview
    poster := m.poster_path.map (fun p => "https://image.tmdb.org/t/p/w500" ++ p) }

/-- Demo row: lowest-rated movie of the demo catalog. -/
def movA : Movie := ⟨"Alpha", "A short tale", 1999, 12, 3, 50, none⟩

/-- Demo row: highest-rated movie of the demo catalog. -/
def movB : Movie := ⟨"Beta", "Another tale", 2020, 34, 17/2, 80, some "/b.jpg"⟩

/-- Demo catalog realising the spec's example bounds `[3.0, 8.5]`; it has no
row with year 1899 and none with popularity 999 or more. -/
def demoCatalog : Catalog := [movA, movB]

/-- A row whose `poster_path` cell holds the empty string. -/
def demoEmptyPoster : Movie :=
  ⟨"Gamma", "An overview that is fairly long.", 2001, 5, 6, 10, some ""⟩

theorem foldl_max_mem (xs : List ℚ) (x : ℚ) :
    xs.foldl max x = x ∨ xs.foldl max x ∈ xs := by
  induction xs generalizing x with
  | nil => exact Or.inl rfl
  | cons y ys ih =>
    simp only [List.foldl_cons]
    rcases ih (max x y) with h | h
    · rcases max_choice x y with hm | hm
      · exact Or.inl (h.trans hm)
      · exact Or.inr (by rw [h, hm]; exact List.mem_cons_self _ _)
    · exact Or.inr (List.mem_cons_of_mem _ h)

theorem mem_choose (l : List Movie) (h : l ≠ []) (k : Nat) : choose l h k ∈ l :=
  List.get_mem _ _ _

/-- When the bounds check of `process_rating` passes, some movie of the
catalog attains the maximal `vote_average` and survives the filter. -/
theorem exists_max_candidate (C : Catalog) (r : ℚ) (h : ratingInBounds C r = true) :
    ∃ m, m ∈ candidates C (.MinRating r) ∧
      seriesMax (C.map Movie.vote_average) = some m.vote_average := by
  cases hvs : C.map Movie.vote_average with
  | nil => simp [ratingInBounds, seriesMin, seriesMax, hvs] at h
  | cons x xs =>
    simp only [ratingInBounds, seriesMin, seriesMax, hvs, Bool.and_eq_true,
      decide_eq_true_eq] at h
    have hmem : xs.foldl max x ∈ C.map Movie.vote_average := by
      rw [hvs]
      rcases foldl_max_mem xs x with hm | hm
      · rw [hm]; exact List.mem_cons_self _ _
      · exact List.mem_cons_of_mem _ hm
    obtain ⟨m, hmC, hmv⟩ := List.mem_map.mp hmem
    refine ⟨m, ?_, ?_⟩
    · simp only [candidates, List.mem_filter, decide_eq_true_eq]
      exact ⟨hmC, by rw [hmv]; exact h.2⟩
    · simp [seriesMax, hvs, hmv]

/-- Claim C1: for every catalog and every filter criterion (`MinRating`,
`Year`, `MinPopularity`, or `Random`), the candidate set computed by the
filtering step is exactly the set of catalog rows satisfying the criterion's
predicate — soundness and completeness of filtering. -/
theorem claim_C1_filtering_sound_complete (C : Catalog) (c : FilterCriterion) (m : Movie) :
    m ∈ candidates C c ↔ m ∈ C ∧ critPred c m := by
  cases c <;> simp [candidates, critPred, List.mem_filter]

/-- Claim C2: on every non-empty candidate list, the selection step returns a
member of that list; invoking it on an empty list is ruled out by the
emptiness proof obligation, mirroring that every caller in the code checks
emptiness first. -/
theorem claim_C2_choose_member (l : List Movie) (h : l ≠ []) (k : Nat) :
    choose l h k ∈ l :=
  mem_choose l h k

theorem claim_C2_witness : choose [movA] (by decide) 0 ∈ [movA] :=
  claim_C2_choose_member [movA] (by decide) 0

/-- Claim C3: rating-flow validation succeeds exactly when the text parses as
a float lying inclusively between the catalog's minimum and maximum
`vote_average`; on failure a corrective reply is emitted and the state stays
`AwaitingRating`; for bounds `[3.0, 8.5]`, `"7.5"` and `"8.5"` succeed while
`"2.9"` and `"abc"` fail. -/
theorem claim_C3_rating_validation :
    (∀ (C : Catalog) (t : String) (r : ℚ),
      validateRating C t = some r ↔ parseFloat t = some r ∧ ratingInBounds C r = true) ∧
    (∀ (C : Catalog) (r lo hi : ℚ),
      seriesMin (C.map Movie.vote_average) = some lo →
      seriesMax (C.map Movie.vote_average) = some hi →
      (ratingInBounds C r = true ↔ lo ≤ r ∧ r ≤ hi)) ∧
    (∀ (C : Catalog) (t : String) (k : Nat),
      validateRating C t = none →
      processRating C t k = (.validationError, .AwaitingRating)) ∧
    validateRating demoCatalog "7.5" = some (15/2) ∧
    validateRating demoCatalog "2.9" = none ∧
    validateRating demoCatalog "abc" = none ∧
    validateRating demoCatalog "8.5" = some (17/2) := by
  refine ⟨?_, ?_, ?_, ?_, ?_, ?_, ?_⟩
  · intro C t r
    cases hp : parseFloat t with
    | none => simp [validateRating, hp]
    | some q =>
      by_cases hb : ratingInBounds C q = true
      · simp only [validateRating, hp, if_pos hb, Option.some.injEq]
        constructor
        · rintro rfl; exact ⟨rfl, hb⟩
        · rintro ⟨h1, _⟩; exact h1
      · simp only [validateRating, hp, if_neg hb, Option.some.injEq]
        constructor
        · intro h; exact absurd h (by simp)
        · rintro ⟨rfl, h2⟩; exact absurd h2 hb
  · intro C r lo hi h1 h2
    simp [ratingInBounds, h1, h2]
  · intro C t k hv
    cases hp : parseFloat t with
    | none => simp [processRating, hp]
    | some q =>
      by_cases hb : ratingInBounds C q = true
      · simp only [validateRating, hp, if_pos hb] at hv
        exact absurd hv (by simp)
      · simp [processRating, hp, hb]
  · have h : parseDecimalRep "7.5" = some (75, 1) := by decide
    norm_num [validateRating, parseFloat, h, ratingInBounds, seriesMin, seriesMax,
      demoCatalog, movA, movB]
  · have h : parseDecimalRep "2.9" = some (29, 1) := by decide
    norm_num [validateRating, parseFloat, h, ratingInBounds, seriesMin, seriesMax,
      demoCatalog, movA, movB]
  · have h : parseDecimalRep "abc" = none := by decide
    norm_num [validateRating, parseFloat, h]
  · have h : parseDecimalRep "8.5" = some (85, 1) := by decide
    norm_num [validateRating, parseFloat, h, ratingInBounds, seriesMin, seriesMax,
      demoCatalog, movA, movB]

theorem claim_C3_witness :
    processRating demoCatalog "abc" 0 = (.validationError, .AwaitingRating) :=
  claim_C3_rating_validation.2.2.1 demoCatalog "abc" 0 (by
    have h : parseDecimalRep "abc" = none := by decide
    norm_num [validateRating, parseFloat, h])

/-- Claim C4: in all three text flows, a fully validated criterion that
matches no catalog row is not an error: the handler replies "not found" and
stays in the same awaiting state, keeping the session open for a retry. -/
theorem claim_C4_empty_result_retry :
    (∀ (C : Catalog) (t : String) (k : Nat) (r : ℚ),
      parseFloat t = some r → ratingInBounds C r = true →
      candidates C (.MinRating r) = [] →
      processRating C t k = (.notFound, .AwaitingRating)) ∧
    (∀ (C : Catalog) (t : String) (k : Nat) (y : Int),
      parseInt t = some y → candidates C (.Year y) = [] →
      processYear C t k = (.notFound, .AwaitingYear)) ∧
    (∀ (C : Catalog) (t : String) (k : Nat) (p : ℚ),
      parseFloat t = some p → candidates C (.MinPopularity p) = [] →
      processPopularity C t k = (.notFound, .AwaitingPopularity)) := by
  refine ⟨?_, ?_, ?_⟩
  · intro C t k r hp hb hc
    simp only [processRating, hp]
    rw [if_pos hb, dif_pos hc]
  · intro C t k y hp hc
    simp only [processYear, hp]
    rw [dif_pos hc]
  · intro C t k p hp hc
    simp only [processPopularity, hp]
    rw [dif_pos hc]

theorem claim_C4_witness :
    processYear demoCatalog "1899" 0 = (.notFound, .AwaitingYear) ∧
    processPopularity demoCatalog "999" 0 = (.notFound, .AwaitingPopularity) := by
  constructor
  · exact claim_C4_empty_result_retry.2.1 demoCatalog "1899" 0 1899 (by decide) (by decide)
  · refine claim_C4_empty_result_retry.2.2 demoCatalog "999" 0 999 ?_ ?_
    · have h : parseDecimalRep "999" = some (999, 0) := by decide
      norm_num [parseFloat, h]
    · norm_num [candidates, demoCatalog, movA, movB, List.filter]

/-- Claim C5 (amended): from every open `Awaiting` state the cancel event
moves the machine to `Idle` and emits the cancellation acknowledgment; after
a cancel the state is `Idle` whatever the starting state was; and a
subsequent random selection on a non-empty catalog resolves normally to a
catalog member.  (From `Idle` itself the cancel command matches no handler —
the fallback is consulted only while a conversation is open — so no
acknowledgment is emitted there.) -/
theorem claim_C5_cancel_to_idle :
    (∀ (C : Catalog) (s : DialogState) (k : Nat), s ≠ .Idle →
      step C s .cancel k = (.cancelled, .Idle)) ∧
    (∀ (C : Catalog) (s : DialogState) (k : Nat),
      (step C s .cancel k).2 = .Idle) ∧
    (∀ (C : Catalog) (s : DialogState) (k k2 : Nat), C ≠ [] →
      ∃ m, m ∈ C ∧
        step C (step C s .cancel k).2 .selectRandom k2 = (.resultMovie m, .Idle)) := by
  refine ⟨?_, ?_, ?_⟩
  · intro C s k hs
    cases s with
    | Idle => exact absurd rfl hs
    | AwaitingRating => rfl
    | AwaitingYear => rfl
    | AwaitingPopularity => rfl
  · intro C s k
    cases s <;> rfl
  · intro C s k k2 hC
    refine ⟨choose C hC k2, mem_choose C hC k2, ?_⟩
    cases s <;>
      (show step C .Idle .selectRandom k2 = _
       simp only [step]
       rw [dif_neg hC])

theorem claim_C5_witness :
    step demoCatalog .AwaitingYear .cancel 0 = (.cancelled, .Idle) ∧
    ∃ m, m ∈ demoCatalog ∧
      step demoCatalog (step demoCatalog .AwaitingYear .cancel 0).2 .selectRandom 0
        = (.resultMovie m, .Idle) :=
  ⟨claim_C5_cancel_to_idle.1 demoCatalog .AwaitingYear 0 (by decide),
   claim_C5_cancel_to_idle.2.2 demoCatalog .AwaitingYear 0 0 (by decide)⟩

/-- Claim C5 as frozen is false at the `Idle` state: `/cancel` is registered
only as a conversation fallback, fallbacks are consulted only while a
conversation is open, so from `Idle` nothing is emitted — in particular not
the cancellation acknowledgment the claim requires. -/
theorem claim_C5_counterexample :
    ¬ (step demoCatalog .Idle .cancel 0 = (.cancelled, .Idle)) := by decide

/-- Claim C6: issuing a new selection intent from any state silently replaces
the pending session with the new one, so after `selectYear` in
`AwaitingRating` the next text input is interpreted as a year; concretely, on
the demo catalog the text "1999" then resolves the 1999 movie, whereas the
rating flow would have rejected "1999" as out of bounds. -/
theorem claim_C6_reentrancy :
    (∀ (C : Catalog) (s : DialogState) (k : Nat),
      step C s .selectRating k = (.prompt, .AwaitingRating) ∧
      step C s .selectYear k = (.prompt, .AwaitingYear) ∧
      step C s .selectPopularity k = (.prompt, .AwaitingPopularity)) ∧
    (∀ (C : Catalog) (t : String) (k k2 : Nat),
      step C (step C .AwaitingRating .selectYear k).2 (.textInput t) k2
        = processYear C t k2) ∧
    step demoCatalog (step demoCatalog .AwaitingRating .selectYear 0).2 (.textInput "1999") 0
      = (.resultMovie movA, .Idle) ∧
    processRating demoCatalog "1999" 0 = (.validationError, .AwaitingRating) := by
  refine ⟨fun C s k => ⟨rfl, rfl, rfl⟩, fun C t k k2 => rfl, by decide, ?_⟩
  have hf : parseFloat "1999" = some 1999 := by
    have h : parseDecimalRep "1999" = some (1999, 0) := by decide
    norm_num [parseFloat, h]
  have hb : ¬ ratingInBounds demoCatalog 1999 = true := by
    norm_num [ratingInBounds, seriesMin, seriesMax, demoCatalog, movA, movB]
  simp only [processRating, hf]
  rw [if_neg hb]

/-- Claim C7: year-flow validation succeeds exactly when the text parses as
an integer, with no range check against the catalog; a parseable year with no
matching movie yields the "not found" outcome with the state still
`AwaitingYear`, not a validation error; `"2020"` parses to `2020` and
`"twenty-twenty"` fails. -/
theorem claim_C7_year_validation :
    (∀ (C : Catalog) (t : String) (k : Nat),
      parseInt t = none → processYear C t k = (.validationError, .AwaitingYear)) ∧
    (∀ (C : Catalog) (t : String) (k : Nat) (y : Int),
      parseInt t = some y → (processYear C t k).1 ≠ .validationError) ∧
    (∀ (C : Catalog) (t : String) (k : Nat) (y : Int),
      parseInt t = some y → candidates C (.Year y) = [] →
      processYear C t k = (.notFound, .AwaitingYear)) ∧
    parseInt "2020" = some 2020 ∧
    parseInt "twenty-twenty" = none := by
  refine ⟨?_, ?_, ?_, by decide, by decide⟩
  · intro C t k hp; simp [processYear, hp]
  · intro C t k y hp
    simp only [processYear, hp]
    split <;> simp
  · intro C t k y hp hc
    simp only [processYear, hp]
    rw [dif_pos hc]

theorem claim_C7_witness :
    processYear demoCatalog "twenty-twenty" 0 = (.validationError, .AwaitingYear) ∧
    processYear demoCatalog "1900" 0 = (.notFound, .AwaitingYear) :=
  ⟨claim_C7_year_validation.1 demoCatalog "twenty-twenty" 0 (by decide),
   claim_C7_year_validation.2.2.1 demoCatalog "1900" 0 1900 (by decide) (by decide)⟩

/-- Claim C8: popularity-flow validation succeeds exactly when the text
parses as a float; no upper bound and no lower bound is enforced, so every
parseable value — negative ones included — is accepted and passed on to the
filtering step; `"-3.5"` parses and is not rejected. -/
theorem claim_C8_popularity_validation :
    (∀ (C : Catalog) (t : String) (k : Nat),
      parseFloat t = none →
      processPopularity C t k = (.validationError, .AwaitingPopularity)) ∧
    (∀ (C : Catalog) (t : String) (k : Nat) (p : ℚ),
      parseFloat t = some p → (processPopularity C t k).1 ≠ .validationError) ∧
    (∀ (C : Catalog) (t : String) (k : Nat) (p : ℚ),
      parseFloat t = some p →
      processPopularity C t k = (.notFound, .AwaitingPopularity) ∨
      ∃ m, m ∈ candidates C (.MinPopularity p) ∧
        processPopularity C t k = (.resultMovie m, .Idle)) ∧
    parseFloat "-3.5" = some (-7/2) := by
  refine ⟨?_, ?_, ?_, ?_⟩
  · intro C t k hp; simp [processPopularity, hp]
  · intro C t k p hp
    simp only [processPopularity, hp]
    split <;> simp
  · intro C t k p hp
    simp only [processPopularity, hp]
    by_cases hc : candidates C (.MinPopularity p) = []
    · left; rw [dif_pos hc]
    · right
      exact ⟨choose _ hc k, mem_choose _ hc k, by rw [dif_neg hc]⟩
  · have h : parseDecimalRep "-3.5" = some (-35, 1) := by decide
    norm_num [parseFloat, h]

theorem claim_C8_witness :
    (processPopularity demoCatalog "-3.5" 0).1 ≠ .validationError :=
  claim_C8_popularity_validation.2.1 demoCatalog "-3.5" 0 (-7/2) (by
    have h : parseDecimalRep "-3.5" = some (-35, 1) := by decide
    norm_num [parseFloat, h])

/-- Claim C9 (amended): the presenter payload carries the header, title,
year, rating with vote count, popularity rendered to a whole number of
tenths, the overview truncated with an ellipsis marker exactly when it
exceeds the configured maximum length (unchanged otherwise), and a poster
reference exactly when `poster_path` is present — the code attaches the
reference for every string value, the empty string included. -/
theorem claim_C9_presenter_payload (maxLen : Nat) (hdr : String) (m : Movie) :
    (mkPayload maxLen hdr m).header = hdr ∧
    (mkPayload maxLen hdr m).title = m.title ∧
    (mkPayload maxLen hdr m).year = m.year ∧
    (mkPayload maxLen hdr m).vote_average = m.vote_average ∧
    (mkPayload maxLen hdr m).vote_count = m.vote_count ∧
    (∃ n : ℤ, (mkPayload maxLen hdr m).popularity1 = (n : ℚ) / 10) ∧
    (m.overview.length > maxLen →
      (mkPayload maxLen hdr m).overviewShown = m.overview.take maxLen ++ "...") ∧
    (m.overview.length ≤ maxLen →
      (mkPayload maxLen hdr m).overviewShown = m.overview) ∧
    ((mkPayload maxLen hdr m).poster.isSome ↔ m.poster_path.isSome) ∧
    (∀ p, m.poster_path = some p →
      (mkPayload maxLen hdr m).poster = some ("https://image.tmdb.org/t/p/w500" ++ p)) := by
  refine ⟨rfl, rfl, rfl, rfl, rfl, ⟨round (m.popularity * 10), rfl⟩, ?_, ?_, ?_, ?_⟩
  · intro h; simp [mkPayload, truncateOverview, h]
  · intro h; simp [mkPayload, truncateOverview, Nat.not_lt.mpr h]
  · cases hp : m.poster_path <;> simp [mkPayload, hp]
  · intro p hp; simp [mkPayload, hp]

theorem claim_C9_witness :
    demoEmptyPoster.overview.length > 10 ∧
    (mkPayload 10 "hdr" demoEmptyPoster).overviewShown
      = demoEmptyPoster.overview.take 10 ++ "..." :=
  ⟨by decide, (claim_C9_presenter_payload 10 "hdr" demoEmptyPoster).2.2.2.2.2.2.1 (by decide)⟩

/-- Claim C9 as frozen is false at a row whose `poster_path` holds the empty
string: the code's guard (`pd.notna` plus `isinstance(str)`) attaches a
poster reference, while the claim requires the path to be non-empty. -/
theorem claim_C9_counterexample :
    ¬ (((mkPayload 400 "hdr" demoEmptyPoster).poster.isSome = true) ↔
        ∃ s, demoEmptyPoster.poster_path = some s ∧ s ≠ "") := by
  intro hIff
  obtain ⟨s, hs, hne⟩ := hIff.mp rfl
  apply hne
  have h2 : (some "" : Option String) = some s := hs
  exact (Option.some.inj h2).symm

/-- Claim C10: on a non-empty catalog, every rating that passes validation
admits a candidate achieving the maximal `vote_average`, so the filtered set
is non-empty and the empty-result branch of the rating flow can never fire. -/
theorem claim_C10_rating_empty_unreachable :
    (∀ (C : Catalog) (r : ℚ), C ≠ [] → ratingInBounds C r = true →
      (∃ m, m ∈ candidates C (.MinRating r) ∧
        seriesMax (C.map Movie.vote_average) = some m.vote_average) ∧
      candidates C (.MinRating r) ≠ []) ∧
    (∀ (C : Catalog) (t : String) (k : Nat), (processRating C t k).1 ≠ .notFound) := by
  constructor
  · intro C r _ h
    obtain ⟨m, hm, hmax⟩ := exists_max_candidate C r h
    exact ⟨⟨m, hm, hmax⟩, fun hnil => List.not_mem_nil m (hnil ▸ hm)⟩
  · intro C t k
    cases hp : parseFloat t with
    | none => simp [processRating, hp]
    | some r =>
      by_cases hb : ratingInBounds C r = true
      · obtain ⟨m, hm, _⟩ := exists_max_candidate C r hb
        have hne : candidates C (.MinRating r) ≠ [] :=
          fun hnil => List.not_mem_nil m (hnil ▸ hm)
        simp only [processRating, hp, if_pos hb]
        rw [dif_neg hne]
        simp
      · simp [processRating, hp, hb]

theorem claim_C10_witness :
    candidates demoCatalog (.MinRating (15/2)) ≠ [] := by
  refine (claim_C10_rating_empty_unreachable.1 demoCatalog (15/2) (by decide) ?_).2
  norm_num [ratingInBounds, seriesMin, seriesMax, demoCatalog, movA, movB]

end MovieBot
